import Mathlib

/-!
Verification development for the Telegram Desktop call-setup core
(`Telegram/SourceFiles/calls/calls_call.cpp`): the `Call` state machine,
its inbound-update dispatch, and the Diffie-Hellman key-exchange helpers.

Bytes are modelled as `Nat` values below 256, byte sequences as `List Nat`,
and 32/64-bit machine arithmetic as `Nat` arithmetic reduced modulo the
word size where overflow matters.  The cryptographic hash primitives
(`openssl::Sha1`, `openssl::Sha256`) are external to the repository and are
modelled by the standard SHA-1 and SHA-256 algorithms.  Fatal assertion
failures (`t_assert`, `Expects`, `Unexpected`) are modelled as `none`.
-/

set_option maxRecDepth 100000

namespace Calls

/-- Truncation to a 32-bit word. -/
def word32 (x : Nat) : Nat := x % 4294967296

/-- Rotate a 32-bit word left by `n` positions. -/
def rotl32 (x n : Nat) : Nat := ((x <<< n) ||| (x >>> (32 - n))) % 4294967296

/-- Rotate a 32-bit word right by `n` positions. -/
def rotr32 (x n : Nat) : Nat := ((x >>> n) ||| (x <<< (32 - n))) % 4294967296

/-- Big-endian bytes of a 32-bit word. -/
def wordToBytesBE (w : Nat) : List Nat :=
  [(w >>> 24) % 256, (w >>> 16) % 256, (w >>> 8) % 256, w % 256]

/-- Big-endian 8-byte encoding of a 64-bit length field. -/
def natToBytes8 (n : Nat) : List Nat :=
  [(n >>> 56) % 256, (n >>> 48) % 256, (n >>> 40) % 256, (n >>> 32) % 256,
   (n >>> 24) % 256, (n >>> 16) % 256, (n >>> 8) % 256, n % 256]

/-- Group consecutive 4-byte runs into big-endian 32-bit words. -/
def bytesToWords32 : List Nat → List Nat
  | b0 :: b1 :: b2 :: b3 :: rest =>
      (((b0 * 256 + b1) * 256 + b2) * 256 + b3) :: bytesToWords32 rest
  | _ => []

/-- Merkle-Damgård padding shared by SHA-1 and SHA-256: append `0x80`,
then zeros, then the 64-bit big-endian bit length, to a multiple of 64. -/
def shaPad (msg : List Nat) : List Nat :=
  msg ++ 128 :: List.replicate ((119 - msg.length % 64) % 64) 0
      ++ natToBytes8 (msg.length * 8)

/-- Cut a byte sequence into 64-byte blocks (structural recursion on a
fuel bounded by the length, so that it reduces in the kernel). -/
def chunks64Aux : Nat → List Nat → List (List Nat)
  | 0, _ => []
  | _, [] => []
  | fuel + 1, x :: xs => ((x :: xs).take 64) :: chunks64Aux fuel ((x :: xs).drop 64)

/-- Cut a byte sequence into 64-byte blocks. -/
def chunks64 (l : List Nat) : List (List Nat) := chunks64Aux l.length l

/-- Running 5-word state of the SHA-1 compression function. -/
structure Sha1State where
  a : Nat
  b : Nat
  c : Nat
  d : Nat
  e : Nat
deriving DecidableEq, Repr

/-- SHA-1 round constants. -/
def sha1K (i : Nat) : Nat :=
  if i < 20 then 1518500249
  else if i < 40 then 1859775393
  else if i < 60 then 2400959708
  else 3395469782

/-- SHA-1 round function. -/
def sha1F (i b c d : Nat) : Nat :=
  if i < 20 then (b &&& c) ||| ((b ^^^ 4294967295) &&& d)
  else if i < 40 then b ^^^ c ^^^ d
  else if i < 60 then (b &&& c) ||| (b &&& d) ||| (c &&& d)
  else b ^^^ c ^^^ d

/-- Extend the 16-word message block by `fuel` schedule words
(`w[i] = rotl1 (w[i-3] xor w[i-8] xor w[i-14] xor w[i-16])`). -/
def sha1Schedule (ws : Array Nat) : Nat → Array Nat
  | 0 => ws
  | fuel + 1 =>
      let n := ws.size
      let w := rotl32 ((ws.getD (n - 3) 0) ^^^ (ws.getD (n - 8) 0)
        ^^^ (ws.getD (n - 14) 0) ^^^ (ws.getD (n - 16) 0)) 1
      sha1Schedule (ws.push w) fuel

/-- SHA-1 compression of one 64-byte block. -/
def sha1Compress (h : Sha1State) (block : List Nat) : Sha1State :=
  let ws := sha1Schedule (Array.mk (bytesToWords32 block)) 64
  let s := (List.range 80).foldl (fun s i =>
    let temp := word32 (rotl32 s.a 5 + sha1F i s.b s.c s.d + s.e + sha1K i + ws.getD i 0)
    ⟨temp, s.a, rotl32 s.b 30, s.c, s.d⟩) h
  ⟨word32 (h.a + s.a), word32 (h.b + s.b), word32 (h.c + s.c),
   word32 (h.d + s.d), word32 (h.e + s.e)⟩

/-- SHA-1 initial state. -/
def sha1Init : Sha1State := ⟨1732584193, 4023233417, 2562383102, 271733878, 3285377520⟩

/-- The 20-byte big-endian digest of a final SHA-1 state. -/
def sha1Digest (s : Sha1State) : List Nat :=
  wordToBytesBE s.a ++ wordToBytesBE s.b ++ wordToBytesBE s.c
    ++ wordToBytesBE s.d ++ wordToBytesBE s.e

/-- SHA-1 of a byte sequence, as used by the external `openssl::Sha1`
primitive; returns the 20-byte digest. -/
def Sha1 (msg : List Nat) : List Nat :=
  sha1Digest ((chunks64 (shaPad msg)).foldl sha1Compress sha1Init)

/-- Running 8-word state of the SHA-256 compression function. -/
structure Sha256State where
  h0 : Nat
  h1 : Nat
  h2 : Nat
  h3 : Nat
  h4 : Nat
  h5 : Nat
  h6 : Nat
  h7 : Nat
deriving DecidableEq, Repr

/-- SHA-256 round constants (decimal). -/
def sha256K : Array Nat := Array.mk
  [1116352408, 1899447441, 3049323471, 3921009573, 961987163, 1508970993,
   2453635748, 2870763221, 3624381080, 310598401, 607225278, 1426881987,
   1925078388, 2162078206, 2614888103, 3248222580, 3835390401, 4022224774,
   264347078, 604807628, 770255983, 1249150122, 1555081692, 1996064986,
   2554220882, 2821834349, 2952996808, 3210313671, 3336571891, 3584528711,
   113926993, 338241895, 666307205, 773529912, 1294757372, 1396182291,
   1695183700, 1986661051, 2177026350, 2456956037, 2730485921, 2820302411,
   3259730800, 3345764771, 3516065817, 3600352804, 4094571909, 275423344,
   430227734, 506948616, 659060556, 883997877, 958139571, 1322822218,
   1537002063, 1747873779, 1955562222, 2024104815, 2227730452, 2361852424,
   2428436474, 2756734187, 3204031479, 3329325298]

/-- Extend the 16-word message block by `fuel` SHA-256 schedule words. -/
def sha256Schedule (ws : Array Nat) : Nat → Array Nat
  | 0 => ws
  | fuel + 1 =>
      let n := ws.size
      let w15 := ws.getD (n - 15) 0
      let w2 := ws.getD (n - 2) 0
      let s0 := rotr32 w15 7 ^^^ rotr32 w15 18 ^^^ (w15 >>> 3)
      let s1 := rotr32 w2 17 ^^^ rotr32 w2 19 ^^^ (w2 >>> 10)
      let w := word32 (ws.getD (n - 16) 0 + s0 + ws.getD (n - 7) 0 + s1)
      sha256Schedule (ws.push w) fuel

/-- SHA-256 compression of one 64-byte block. -/
def sha256Compress (h : Sha256State) (block : List Nat) : Sha256State :=
  let ws := sha256Schedule (Array.mk (bytesToWords32 block)) 48
  let s := (List.range 64).foldl (fun s i =>
    let bigS1 := rotr32 s.h4 6 ^^^ rotr32 s.h4 11 ^^^ rotr32 s.h4 25
    let ch := (s.h4 &&& s.h5) ^^^ ((s.h4 ^^^ 4294967295) &&& s.h6)
    let t1 := word32 (s.h7 + bigS1 + ch + sha256K.getD i 0 + ws.getD i 0)
    let bigS0 := rotr32 s.h0 2 ^^^ rotr32 s.h0 13 ^^^ rotr32 s.h0 22
    let maj := (s.h0 &&& s.h1) ^^^ (s.h0 &&& s.h2) ^^^ (s.h1 &&& s.h2)
    let t2 := word32 (bigS0 + maj)
    ⟨word32 (t1 + t2), s.h0, s.h1, s.h2, word32 (s.h3 + t1), s.h4, s.h5, s.h6⟩) h
  ⟨word32 (h.h0 + s.h0), word32 (h.h1 + s.h1), word32 (h.h2 + s.h2), word32 (h.h3 + s.h3),
   word32 (h.h4 + s.h4), word32 (h.h5 + s.h5), word32 (h.h6 + s.h6), word32 (h.h7 + s.h7)⟩

/-- SHA-256 initial state. -/
def sha256Init : Sha256State :=
  ⟨1779033703, 3144134277, 1013904242, 2773480762, 1359893119, 2600822924, 528734635, 1541459225⟩

/-- The 32-byte big-endian digest of a final SHA-256 state. -/
def sha256Digest (s : Sha256State) : List Nat :=
  wordToBytesBE s.h0 ++ wordToBytesBE s.h1 ++ wordToBytesBE s.h2 ++ wordToBytesBE s.h3
    ++ wordToBytesBE s.h4 ++ wordToBytesBE s.h5 ++ wordToBytesBE s.h6 ++ wordToBytesBE s.h7

/-- SHA-256 of a byte sequence, as used by the external `openssl::Sha256`
primitive; returns the 32-byte digest. -/
def Sha256 (msg : List Nat) : List Nat :=
  sha256Digest ((chunks64 (shaPad msg)).foldl sha256Compress sha256Init)

/-- Big-endian interpretation of a byte sequence as an unsigned integer,
as `openssl::BigNum(bytes)` does. -/
def bytesToNat (l : List Nat) : Nat := l.foldl (fun acc b => acc * 256 + b) 0

/-- Minimal big-endian byte encoding of an unsigned integer (structural
recursion on a fuel bounded by the value, so that it reduces in the
kernel). -/
def natToBytesAux : Nat → Nat → List Nat
  | 0, _ => []
  | fuel + 1, n => if n = 0 then [] else natToBytesAux fuel (n / 256) ++ [n % 256]

/-- Minimal big-endian byte encoding of an unsigned integer, as
`BigNum::getBytes` (`BN_bn2bin`) produces; zero encodes to the empty
sequence. -/
def natToBytes (n : Nat) : List Nat := natToBytesAux n n

/-- Diffie-Hellman domain parameters (`DhConfig`): generator `g` and
big-endian prime bytes `p`. -/
structure DhConfig where
  g : Nat
  p : List Nat
deriving DecidableEq, Repr

/-- Bound `kMaxModExpSize` on the byte size of a modular-exponentiation
result, asserted in `ComputeModExp`. -/
def kMaxModExpSize : Nat := 256

/-- `ComputeModExp`: `base ^ randomPower mod p` as bytes.  A degenerate
modulus (zero) makes the big-number primitive fail, surfaced as an empty
result; a result larger than `kMaxModExpSize` bytes trips `t_assert`
(modelled as `none`). -/
def ComputeModExp (config : DhConfig) (base : Nat) (randomPower : List Nat) :
    Option (List Nat) :=
  let m := bytesToNat config.p
  let result := if m = 0 then [] else natToBytes ((base ^ bytesToNat randomPower) % m)
  if result.length ≤ kMaxModExpSize then some result else none

/-- `ComputeModExpFirst`: `g ^ randomPower mod p`. -/
def ComputeModExpFirst (config : DhConfig) (randomPower : List Nat) : Option (List Nat) :=
  ComputeModExp config config.g randomPower

/-- `ComputeModExpFinal`: `first ^ randomPower mod p` for a peer value
`first` given as bytes. -/
def ComputeModExpFinal (config : DhConfig) (first randomPower : List Nat) :
    Option (List Nat) :=
  ComputeModExp config (bytesToNat first) randomPower

/-- Size `kFingerprintDataSize` of the auth key hashed by
`ComputeFingerprint`. -/
def kFingerprintDataSize : Nat := 256

/-- `ComputeFingerprint`: SHA-1 the full auth key and pack digest bytes
12..19 into a 64-bit value, digest byte 19 shifted highest, exactly as the
source's shift-and-or expression. -/
def ComputeFingerprint (authKey : List Nat) : Nat :=
  let hash := Sha1 authKey
  (hash.getD 19 0 <<< 56)
    ||| (hash.getD 18 0 <<< 48)
    ||| (hash.getD 17 0 <<< 40)
    ||| (hash.getD 16 0 <<< 32)
    ||| (hash.getD 15 0 <<< 24)
    ||| (hash.getD 14 0 <<< 16)
    ||| (hash.getD 13 0 <<< 8)
    ||| hash.getD 12 0

/-- Fixed auth-key size `kAuthKeySize` (256 bytes). -/
def kAuthKeySize : Nat := 256

/-- Modelled from the spec: `kRandomPowerSize`, the fixed size of the
secret exponent, is declared in the class header, which is not among the
sources; the spec fixes only that it is a fixed size, taken here as 256
matching the modulus bound. -/
def kRandomPowerSize : Nat := 256

/-- The auth-key derivation step shared by `confirmAcceptedCall` and
`startConfirmedCall` (the spec's `deriveAuthKey`): `t_assert` that the raw
shared secret is no longer than `kAuthKeySize` (violation is fatal,
modelled `none`), then left-zero-pad it to exactly `kAuthKeySize` bytes. -/
def deriveAuthKey (raw : List Nat) : Option (List Nat) :=
  if raw.length ≤ kAuthKeySize then
    some (List.replicate (kAuthKeySize - raw.length) 0 ++ raw)
  else none

/-- Call direction (`Call::Type`). -/
inductive CallType
  | Outgoing
  | Incoming
deriving DecidableEq, Repr

/-- Call lifecycle states (`Call::State`).  `Starting` is modelled from
the spec: the initial state held between construction and the first
transition is declared in the class header, which is not among the
sources; the spec's outgoing scenario has construction itself emit a
`Requesting` state-change notification, so the initial state is a
distinct value never transitioned into. -/
inductive State
  | Starting
  | Requesting
  | Waiting
  | Ringing
  | ExchangingKeys
  | WaitingInit
  | WaitingInitAck
  | Established
  | HangingUp
  | Ended
  | Busy
  | Failed
deriving DecidableEq, Repr

/-- Discard reasons (`MTPPhoneCallDiscardReason`); only `busy` is
inspected by the update handler. -/
inductive DiscardReason
  | missed
  | hangup
  | busy
  | disconnect
deriving DecidableEq, Repr

/-- Payload of an `mtpc_phoneCallRequested` update (the fields the handler
reads). -/
structure RequestedData where
  id : Nat
  accessHash : Nat
  adminId : Nat
  participantId : Nat
  protocol : Nat
  gaHash : List Nat
deriving DecidableEq, Repr

/-- Payload of an `mtpc_phoneCallWaiting` update. -/
structure WaitingData where
  id : Nat
  accessHash : Nat
deriving DecidableEq, Repr

/-- Payload of a confirmed `mtpc_phoneCall` update.  `connections` models
the primary and alternative connection descriptors by their peer tags,
which is all `ConvertEndpoint` validates. -/
structure PhoneCallData where
  id : Nat
  accessHash : Nat
  adminId : Nat
  participantId : Nat
  gAorB : List Nat
  keyFingerprint : Nat
  connections : List (List Nat)
deriving DecidableEq, Repr

/-- Payload of an `mtpc_phoneCallDiscarded` update. -/
structure DiscardedData where
  id : Nat
  needDebug : Bool
  reason : Option DiscardReason
deriving DecidableEq, Repr

/-- Payload of an `mtpc_phoneCallAccepted` update. -/
structure AcceptedData where
  id : Nat
  accessHash : Nat
  adminId : Nat
  participantId : Nat
  gb : List Nat
deriving DecidableEq, Repr

/-- The tagged signaling-update variants dispatched through
`Call::handleUpdate`. -/
inductive PhoneCallUpdate
  | requested (d : RequestedData)
  | empty (id : Nat)
  | waiting (d : WaitingData)
  | call (d : PhoneCallData)
  | discarded (d : DiscardedData)
  | accepted (d : AcceptedData)
deriving DecidableEq, Repr

/-- Signaling requests issued by the call. -/
inductive Request
  | requestCall (userId randomId : Nat) (gaHash : List Nat)
  | acceptCall (id accessHash : Nat) (gb : List Nat) (protocol : Nat)
  | confirmCall (id accessHash : Nat) (ga : List Nat) (keyFingerprint : Nat)
  | discardCall (id accessHash : Nat) (reason : DiscardReason)
  | saveCallDebug (id accessHash : Nat) (debugLog : List Nat)
deriving DecidableEq, Repr

/-- Observable side effects of a step of the call: state-change
notifications, delegate callbacks, timer arming (the single rearmable
`_hangupByTimeoutTimer`), outgoing signaling requests, and the creation
and start of the media-transport controller. -/
inductive Effect
  | stateChanged (s : State)
  | startTimeRefresh
  | callFinished
  | callFailed
  | armHangupTimeout
  | sendRequest (r : Request)
  | controllerStarted
deriving DecidableEq, Repr

/-- The `Call` session object.  `peerUserId` is `peerToUser(_user->id)`
and `selfUserId` is `AuthSession::CurrentUserId()`, injected identity
context.  `controllerCreated` tracks whether the media-transport handle
exists; `debugLog` models the transport's debug-log snapshot read when a
discarded update asks for it. -/
structure Call where
  type : CallType
  state : State
  id : Nat
  accessHash : Nat
  protocol : Nat
  dhConfig : DhConfig
  randomPower : List Nat
  ga : List Nat
  gb : List Nat
  gaHash : List Nat
  authKey : List Nat
  keyFingerprint : Nat
  mute : Bool
  finishAfterRequestingCall : Bool
  controllerCreated : Bool
  startTimeSet : Bool
  debugLog : List Nat
  peerUserId : Nat
  selfUserId : Nat
deriving DecidableEq, Repr

/-- `Call::setState`: no-op when the state is unchanged; otherwise store
the new state, notify, and run the entry action keyed by the new state. -/
def Call.setState (c : Call) (s : State) : Call × List Effect :=
  if c.state = s then (c, [])
  else
    let c1 : Call := { c with state := s }
    match s with
    | .WaitingInit => ({ c1 with startTimeSet := true }, [.stateChanged s, .startTimeRefresh])
    | .WaitingInitAck => ({ c1 with startTimeSet := true }, [.stateChanged s, .startTimeRefresh])
    | .Established => ({ c1 with startTimeSet := true }, [.stateChanged s, .startTimeRefresh])
    | .Ended => (c1, [.stateChanged s, .callFinished])
    | .Failed => (c1, [.stateChanged s, .callFailed])
    | .Busy => (c1, [.stateChanged s, .armHangupTimeout])
    | _ => (c1, [.stateChanged s])

/-- `Call::finish`: in `Requesting`, arm the timeout and defer via
`_finishAfterRequestingCall`; in `HangingUp`/`Ended`, no-op; with no id
assigned, go straight to `Ended`; otherwise enter `HangingUp`, arm the
timeout and issue the discard request. -/
def Call.finish (c : Call) (reason : DiscardReason) : Call × List Effect :=
  if c.state = .Requesting then
    ({ c with finishAfterRequestingCall := true }, [.armHangupTimeout])
  else if c.state = .HangingUp ∨ c.state = .Ended then (c, [])
  else if c.id = 0 then c.setState .Ended
  else
    let (c1, e1) := c.setState .HangingUp
    (c1, e1 ++ [.armHangupTimeout, .sendRequest (.discardCall c.id c.accessHash reason)])

/-- `Call::hangup`: classify missed vs normal hangup and finish. -/
def Call.hangup (c : Call) : Call × List Effect :=
  let missed := c.state = .Ringing ∨ (c.state = .Waiting ∧ c.type = .Outgoing)
  c.finish (if missed then .missed else .hangup)

/-- `Call::decline`: finish with the busy reason. -/
def Call.decline (c : Call) : Call × List Effect :=
  c.finish .busy

/-- `Call::generateRandomPower`: `Expects` the caller-supplied entropy to
match the secret's fixed size (violation is a fatal contract failure,
modelled `none`), then fill the secret with system randomness `sysRand`
and mix the entropy in byte-wise by exclusive-or. -/
def Call.generateRandomPower (c : Call) (sysRand random : List Nat) : Option Call :=
  if random.length = c.randomPower.length then
    some { c with randomPower := List.zipWith (fun a b => a ^^^ b) sysRand random }
  else none

/-- `Call::startIncoming`: enter `Ringing`. -/
def Call.startIncoming (c : Call) : Call × List Effect :=
  c.setState .Ringing

/-- `Call::startOutgoing`: compute `ga` (empty → `Failed`), hash it, enter
`Requesting` and issue the request-call signaling request.  `randomId`
models the freshly drawn random request id. -/
def Call.startOutgoing (c : Call) (randomId : Nat) : Option (Call × List Effect) :=
  match ComputeModExpFirst c.dhConfig c.randomPower with
  | none => none
  | some ga =>
    let c := { c with ga := ga }
    if ga = [] then some (c.setState .Failed)
    else
      let c := { c with gaHash := Sha256 ga }
      let (c1, e1) := c.setState .Requesting
      some (c1, e1 ++ [.sendRequest (.requestCall c1.peerUserId randomId c1.gaHash)])

/-- `Call::start`: snapshot the DH config (`t_assert` it is
non-degenerate; violation is fatal, modelled `none`), generate the secret
exponent, then branch on the call direction. -/
def Call.start (c : Call) (dh : DhConfig) (sysRand random : List Nat) (randomId : Nat) :
    Option (Call × List Effect) :=
  if dh.g = 0 ∨ dh.p = [] then none
  else
    let c := { c with dhConfig := dh }
    match c.generateRandomPower sysRand random with
    | none => none
    | some c =>
      if c.type = .Outgoing then c.startOutgoing randomId
      else some c.startIncoming

/-- `Call::answer`: `Expects` an incoming call; compute `gb` (empty →
`Failed`), enter `ExchangingKeys` and issue the accept-call request. -/
def Call.answer (c : Call) : Option (Call × List Effect) :=
  if c.type ≠ .Incoming then none
  else
    match ComputeModExpFirst c.dhConfig c.randomPower with
    | none => none
    | some gb =>
      let c := { c with gb := gb }
      if gb = [] then some (c.setState .Failed)
      else
        let (c1, e1) := c.setState .ExchangingKeys
        some (c1, e1 ++ [.sendRequest (.acceptCall c1.id c1.accessHash gb c1.protocol)])

/-- `Call::checkCallCommonFields`: access hash and the direction-dependent
admin/participant identities must match; any mismatch sets `Failed` and
reports failure. -/
def Call.checkCallCommonFields (c : Call) (accessHash adminId participantId : Nat) :
    Bool × Call × List Effect :=
  if accessHash ≠ c.accessHash then
    let (c1, e1) := c.setState .Failed
    (false, c1, e1)
  else
    let adminExpected := if c.type = .Outgoing then c.selfUserId else c.peerUserId
    let participantExpected := if c.type = .Outgoing then c.peerUserId else c.selfUserId
    if adminId ≠ adminExpected then
      let (c1, e1) := c.setState .Failed
      (false, c1, e1)
    else if participantId ≠ participantExpected then
      let (c1, e1) := c.setState .Failed
      (false, c1, e1)
    else (true, c, [])

/-- `Call::checkCallFields` for a full `phoneCall` record: the common
fields plus the key fingerprint. -/
def Call.checkCallFieldsCall (c : Call) (d : PhoneCallData) : Bool × Call × List Effect :=
  let (ok, c1, e1) := c.checkCallCommonFields d.accessHash d.adminId d.participantId
  if ok then
    if d.keyFingerprint ≠ c1.keyFingerprint then
      let (c2, e2) := c1.setState .Failed
      (false, c2, e1 ++ e2)
    else (true, c1, e1)
  else (false, c1, e1)

/-- `Call::checkCallFields` for a `phoneCallAccepted` record: the common
fields only. -/
def Call.checkCallFieldsAccepted (c : Call) (d : AcceptedData) : Bool × Call × List Effect :=
  c.checkCallCommonFields d.accessHash d.adminId d.participantId

/-- `ConvertEndpoint` over the primary and alternative connection
descriptors: a descriptor whose peer tag is not 16 bytes is skipped. -/
def convertEndpoints (connections : List (List Nat)) : List (List Nat) :=
  connections.filter (fun tag => tag.length = 16)

/-- `Call::createAndStartController`: re-validate the call fields (which
may set `Failed`); on success enter `Established`, convert the endpoint
descriptors, construct the media-transport controller and start it. -/
def Call.createAndStartController (c : Call) (d : PhoneCallData) : Call × List Effect :=
  let (ok, c1, e1) := c.checkCallFieldsCall d
  if ok then
    let (c2, e2) := c1.setState .Established
    ({ c2 with controllerCreated := true }, e1 ++ e2 ++ [.controllerStarted])
  else (c1, e1)

/-- `Call::confirmAcceptedCall`: `Expects` an outgoing call; compute the
raw shared secret from the peer's `g_b` (empty → `Failed`), derive the
auth key and fingerprint, enter `ExchangingKeys` and issue the
confirm-call request. -/
def Call.confirmAcceptedCall (c : Call) (d : AcceptedData) : Option (Call × List Effect) :=
  if c.type ≠ .Outgoing then none
  else
    match ComputeModExpFinal c.dhConfig d.gb c.randomPower with
    | none => none
    | some computedAuthKey =>
      if computedAuthKey = [] then some (c.setState .Failed)
      else
        match deriveAuthKey computedAuthKey with
        | none => none
        | some authKey =>
          let c := { c with authKey := authKey, keyFingerprint := ComputeFingerprint authKey }
          let (c1, e1) := c.setState .ExchangingKeys
          some (c1, e1 ++ [.sendRequest (.confirmCall c1.id c1.accessHash c1.ga c1.keyFingerprint)])

/-- `Call::startConfirmedCall`: `Expects` an incoming call; verify the
revealed `g_a_or_b` hashes to the stored commitment (mismatch →
`Failed`), compute the raw shared secret (empty → `Failed`), derive the
auth key and fingerprint, then create and start the controller. -/
def Call.startConfirmedCall (c : Call) (d : PhoneCallData) : Option (Call × List Effect) :=
  if c.type ≠ .Incoming then none
  else
    let firstBytes := d.gAorB
    if c.gaHash ≠ Sha256 firstBytes then some (c.setState .Failed)
    else
      match ComputeModExpFinal c.dhConfig firstBytes c.randomPower with
      | none => none
      | some computedAuthKey =>
        if computedAuthKey = [] then some (c.setState .Failed)
        else
          match deriveAuthKey computedAuthKey with
          | none => none
          | some authKey =>
            let c := { c with authKey := authKey, keyFingerprint := ComputeFingerprint authKey }
            some (c.createAndStartController d)

/-- `Call::handleUpdate`: dispatch one inbound signaling update; the
boolean reports whether the update was consumed by this call.  The
`Unexpected` fatal paths (a `phoneCallRequested` violating its
precondition) are modelled as `none`. -/
def Call.handleUpdate (c : Call) (u : PhoneCallUpdate) :
    Option (Bool × Call × List Effect) :=
  match u with
  | .requested d =>
    if c.type ≠ .Incoming ∨ c.id ≠ 0 ∨ c.peerUserId ≠ d.adminId then none
    else if c.selfUserId ≠ d.participantId then
      let (c1, e1) := c.setState .Failed
      some (true, c1, e1)
    else
      let c := { c with id := d.id, accessHash := d.accessHash, protocol := d.protocol }
      if d.gaHash.length ≠ c.gaHash.length then
        let (c1, e1) := c.setState .Failed
        some (true, c1, e1)
      else some (true, { c with gaHash := d.gaHash }, [])
  | .empty i =>
    if i ≠ c.id then some (false, c, [])
    else
      let (c1, e1) := c.setState .Failed
      some (true, c1, e1)
  | .waiting d =>
    if d.id ≠ c.id then some (false, c, [])
    else some (true, c, [])
  | .call d =>
    if d.id ≠ c.id then some (false, c, [])
    else if c.type = .Incoming ∧ c.state = .ExchangingKeys then
      match c.startConfirmedCall d with
      | none => none
      | some (c1, e1) => some (true, c1, e1)
    else some (true, c, [])
  | .discarded d =>
    if d.id ≠ c.id then some (false, c, [])
    else
      let debugEffects :=
        if d.needDebug ∧ c.controllerCreated ∧ c.debugLog ≠ [] then
          [Effect.sendRequest (.saveCallDebug c.id c.accessHash c.debugLog)]
        else []
      let (c1, e1) :=
        if d.reason = some .busy then c.setState .Busy else c.setState .Ended
      some (true, c1, debugEffects ++ e1)
  | .accepted d =>
    if d.id ≠ c.id then some (false, c, [])
    else if c.type ≠ .Outgoing then
      let (c1, e1) := c.setState .Failed
      some (true, c1, e1)
    else
      let (ok, c1, e1) := c.checkCallFieldsAccepted d
      if ok then
        match c1.confirmAcceptedCall d with
        | none => none
        | some (c2, e2) => some (true, c2, e1 ++ e2)
      else some (true, c1, e1)

/-- The id embedded in an update, for the five id-matched variants
(`phoneCallRequested` is gated by precondition instead). -/
def PhoneCallUpdate.embeddedId : PhoneCallUpdate → Option Nat
  | .requested _ => none
  | .empty i => some i
  | .waiting d => some d.id
  | .call d => some d.id
  | .discarded d => some d.id
  | .accepted d => some d.id

/-- The done-handler of `phone.requestCall` in `Call::startOutgoing`: a
non-waiting inner variant is `Failed`; otherwise enter `Waiting`, honour a
deferred hangup, or store `id`/`accessHash` and re-dispatch the nested
update through `handleUpdate`. -/
def Call.requestCallResult (c : Call) (inner : PhoneCallUpdate) :
    Option (Call × List Effect) :=
  match inner with
  | .waiting d =>
    let (c1, e1) := c.setState .Waiting
    if c1.finishAfterRequestingCall then
      let (c2, e2) := c1.hangup
      some (c2, e1 ++ e2)
    else
      let c2 := { c1 with id := d.id, accessHash := d.accessHash }
      match c2.handleUpdate inner with
      | none => none
      | some (_, c3, e3) => some (c3, e1 ++ e3)
  | _ => some (c.setState .Failed)

/-- The fail-handler of `phone.requestCall`. -/
def Call.requestCallFail (c : Call) : Call × List Effect :=
  c.setState .Failed

/-- `Call::Call`: construct a call for a peer; an outgoing call
immediately enters `Requesting`. -/
def Call.construct (type : CallType) (peerUserId selfUserId : Nat) : Call × List Effect :=
  let c : Call :=
    { type := type
      state := .Starting
      id := 0
      accessHash := 0
      protocol := 0
      dhConfig := { g := 0, p := [] }
      randomPower := List.replicate kRandomPowerSize 0
      ga := []
      gb := []
      gaHash := List.replicate 32 0
      authKey := List.replicate kAuthKeySize 0
      keyFingerprint := 0
      mute := false
      finishAfterRequestingCall := false
      controllerCreated := false
      startTimeSet := false
      debugLog := []
      peerUserId := peerUserId
      selfUserId := selfUserId }
  if type = .Outgoing then c.setState .Requesting else (c, [])

/-- Big-endian assembly of a byte sequence into an unsigned integer: the
first listed byte is the most significant (the spec's words for the
fingerprint layout). -/
def assembleBE (bs : List Nat) : Nat := bs.foldl (fun acc b => (acc <<< 8) ||| b) 0

/-- Left shift distributes over bitwise or. -/
theorem or_shiftLeft (a b n : Nat) : (a ||| b) <<< n = (a <<< n) ||| (b <<< n) := by
  apply Nat.eq_of_testBit_eq
  intro i
  simp [Nat.testBit_shiftLeft, Nat.testBit_or]
  by_cases h : n ≤ i <;> simp [h]

/-- A freshly constructed incoming call (peer user 7, local user 9). -/
def sampleIncoming : Call := (Call.construct .Incoming 7 9).1

/-- A freshly constructed outgoing call (peer user 7, local user 9). -/
def sampleOutgoing : Call := (Call.construct .Outgoing 7 9).1

/-- An incoming call that has reached `Ended` with id 5 assigned. -/
def cEnded : Call := { sampleIncoming with id := 5, state := .Ended }

/-- An outgoing call in `ExchangingKeys` with id 5 assigned. -/
def cOutEx : Call := { sampleOutgoing with id := 5, state := .ExchangingKeys }

/-- An incoming call in `ExchangingKeys` with id 5 assigned. -/
def cIncEx : Call := { sampleIncoming with id := 5, state := .ExchangingKeys }

/-- Small sample Diffie-Hellman parameters. -/
def dhSample : DhConfig := ⟨2, [7]⟩

/-- 256 zero bytes. -/
def zeros256 : List Nat := List.replicate 256 0

/-- Claim C8: calling `setState` with the currently-held state is a
no-op: the call is unchanged and no notification or entry-action side
effect is produced. -/
theorem C8_setState_same_state_noop (c : Call) (s : State) (h : c.state = s) :
    c.setState s = (c, []) := by
  simp [Call.setState, h]

/-- Witness for C8 at a concrete call. -/
theorem C8_setState_same_state_noop_witness :
    sampleIncoming.setState .Starting = (sampleIncoming, []) :=
  C8_setState_same_state_noop sampleIncoming .Starting (by decide)

/-- Claim C7: an inbound update of the five id-matched variants whose
embedded id differs from the call's stored id is not consumed and leaves
the call entirely unchanged, with no effects. -/
theorem C7_id_mismatch_ignored (c : Call) (u : PhoneCallUpdate) (i : Nat)
    (h1 : u.embeddedId = some i) (h2 : i ≠ c.id) :
    c.handleUpdate u = some (false, c, []) := by
  cases u <;> simp_all [PhoneCallUpdate.embeddedId, Call.handleUpdate]

/-- Witness for C7 at a concrete call and update. -/
theorem C7_id_mismatch_ignored_witness :
    cEnded.handleUpdate (.empty 99) = some (false, cEnded, []) :=
  C7_id_mismatch_ignored cEnded (.empty 99) 99 (by decide) (by decide)

/-- Claim C4: auth-key derivation left-zero-pads a raw shared secret of
at most the fixed key size to exactly the key size, copies directly when
the length matches, and treats a longer input as a fatal invariant
violation. -/
theorem C4_deriveAuthKey_pads_left (raw : List Nat) :
    (raw.length ≤ kAuthKeySize →
      deriveAuthKey raw = some (List.replicate (kAuthKeySize - raw.length) 0 ++ raw) ∧
      (List.replicate (kAuthKeySize - raw.length) 0 ++ raw).length = kAuthKeySize) ∧
    (raw.length = kAuthKeySize → deriveAuthKey raw = some raw) ∧
    (kAuthKeySize < raw.length → deriveAuthKey raw = none) := by
  refine ⟨fun h => ⟨by simp [deriveAuthKey, h], by simp; omega⟩, fun h => ?_, fun h => ?_⟩
  · simp [deriveAuthKey, h]
  · simp [deriveAuthKey]; omega

/-- Witness for C4: a short input is left-zero-padded, an equal-length
input is copied, an over-long input is fatal. -/
theorem C4_deriveAuthKey_pads_left_witness :
    deriveAuthKey [1, 2, 3] = some (List.replicate 253 0 ++ [1, 2, 3]) ∧
    deriveAuthKey (List.replicate 256 9) = some (List.replicate 256 9) ∧
    deriveAuthKey (List.replicate 257 9) = none :=
  ⟨((C4_deriveAuthKey_pads_left [1, 2, 3]).1 (by decide)).1,
   (C4_deriveAuthKey_pads_left (List.replicate 256 9)).2.1 (by decide),
   (C4_deriveAuthKey_pads_left (List.replicate 257 9)).2.2 (by decide)⟩

/-- Counterexample to claim C5 as stated: invoking the secret-generation
step (via `start`) with entropy of the wrong length is a fatal contract
violation (`Expects`), modelled `none`; no call object in state `Failed`
is produced. -/
theorem C5_counterexample :
    sampleIncoming.start dhSample zeros256 [] 0 = none := by
  decide

/-- Claim C5 as amended: entropy whose length differs from the fixed
secret-exponent size makes `generateRandomPower` (and hence `start`) fail
the process-level contract, modelled as `none`; no `Failed` transition
happens. -/
theorem C5_entropy_length_mismatch_fatal (c : Call) (dh : DhConfig)
    (sysRand random : List Nat) (randomId : Nat)
    (h : random.length ≠ c.randomPower.length) :
    c.generateRandomPower sysRand random = none ∧
    c.start dh sysRand random randomId = none := by
  constructor
  · simp [Call.generateRandomPower, h]
  · simp only [Call.start]
    split
    · rfl
    · simp [Call.generateRandomPower, h]

/-- Witness for C5's amended claim at a concrete call. -/
theorem C5_entropy_length_mismatch_fatal_witness :
    sampleIncoming.generateRandomPower zeros256 [1, 2] = none ∧
    sampleIncoming.start dhSample zeros256 [1, 2] 0 = none :=
  C5_entropy_length_mismatch_fatal sampleIncoming dhSample zeros256 [1, 2] 0 (by decide)

/-- Counterexample to claim C2 as stated: from `Ended`, a matching
call-empty update moves the call to `Failed`, so `Ended` is not absorbing
under inbound updates. -/
theorem C2_counterexample :
    cEnded.state = .Ended ∧
    cEnded.handleUpdate (.empty 5) =
      some (true, { cEnded with state := .Failed },
        [.stateChanged .Failed, .callFailed]) ∧
    ({ cEnded with state := .Failed } : Call).state ≠ .Ended := by
  decide

/-- Claim C2 as amended: `Ended` (and `HangingUp`) absorb every local
finish-based action — `hangup`, `decline` and `finish` leave the call
unchanged with no effects. -/
theorem C2_ended_absorbs_local_actions (c : Call) (r : DiscardReason)
    (h : c.state = .Ended ∨ c.state = .HangingUp) :
    c.finish r = (c, []) ∧ c.hangup = (c, []) ∧ c.decline = (c, []) := by
  rcases h with h | h <;>
    simp [Call.finish, Call.hangup, Call.decline, h]

/-- Witness for C2's amended claim at a concrete `Ended` call. -/
theorem C2_ended_absorbs_local_actions_witness :
    cEnded.finish .hangup = (cEnded, []) ∧ cEnded.hangup = (cEnded, []) ∧
    cEnded.decline = (cEnded, []) :=
  C2_ended_absorbs_local_actions cEnded .hangup (Or.inl (by decide))

/-- A confirmed-call payload whose revealed value `[1]` does not hash to
the all-zero stored commitment, addressed to call id 5. -/
def dMismatch : PhoneCallData :=
  { id := 5, accessHash := 0, adminId := 0, participantId := 0,
    gAorB := [1], keyFingerprint := 0, connections := [] }

/-- Counterexample to claim C1 as stated: for an outgoing call (here in
`ExchangingKeys`), a confirmed-call update whose revealed value does not
hash to the stored commitment is consumed with no action at all — the
state does not become `Failed` (and no transport is created). -/
theorem C1_counterexample :
    Sha256 dMismatch.gAorB ≠ cOutEx.gaHash ∧
    cOutEx.handleUpdate (.call dMismatch) = some (true, cOutEx, []) ∧
    cOutEx.state ≠ .Failed := by
  decide

/-- Claim C1 as amended: for an incoming call in `ExchangingKeys`, a
confirmed-call update whose revealed value does not SHA-256-hash to the
stored commitment forces `Failed`, and the transport is never created for
that update (`createAndStartController` is not reached: the handler
returns before it, so no controller exists and no controller-start effect
is emitted). -/
theorem C1_commitment_mismatch_fails (c : Call) (d : PhoneCallData)
    (h1 : d.id = c.id) (h2 : c.type = .Incoming) (h3 : c.state = .ExchangingKeys)
    (h4 : Sha256 d.gAorB ≠ c.gaHash) :
    c.handleUpdate (.call d) =
      some (true, { c with state := .Failed }, [.stateChanged .Failed, .callFailed]) ∧
    Effect.controllerStarted ∉ [Effect.stateChanged .Failed, Effect.callFailed] ∧
    ({ c with state := .Failed } : Call).controllerCreated = c.controllerCreated := by
  refine ⟨?_, by simp, rfl⟩
  simp [Call.handleUpdate, h1, h2, h3, Call.startConfirmedCall, Ne.symm h4,
    Call.setState]

/-- Witness for C1's amended claim at a concrete incoming call. -/
theorem C1_commitment_mismatch_fails_witness :
    cIncEx.handleUpdate (.call dMismatch) =
      some (true, { cIncEx with state := .Failed },
        [.stateChanged .Failed, .callFailed]) ∧
    Effect.controllerStarted ∉ [Effect.stateChanged .Failed, Effect.callFailed] ∧
    ({ cIncEx with state := .Failed } : Call).controllerCreated = cIncEx.controllerCreated :=
  C1_commitment_mismatch_fails cIncEx dMismatch (by decide) (by decide) (by decide)
    (by decide)

/-- Counterexample to claim C3 as stated: at the all-zero 256-byte key,
the fingerprint is not the big-endian (most-significant-byte-first)
assembly of SHA-1 digest bytes 12..19. -/
theorem C3_counterexample :
    ComputeFingerprint (List.replicate 256 0) ≠
      assembleBE (((Sha1 (List.replicate 256 0)).drop 12).take 8) := by
  decide

/-- Claim C3 as amended: the fingerprint is the 8 digest bytes at offsets
12..19 of the SHA-1 of the full key assembled with the byte at offset 19
most significant — the little-endian reinterpretation, i.e. the
big-endian assembly of the reversed byte range. -/
theorem C3_fingerprint_byte_order (authKey : List Nat) :
    ComputeFingerprint authKey =
      assembleBE ((((Sha1 authKey).drop 12).take 8).reverse) := by
  simp only [ComputeFingerprint, Sha1]
  generalize (chunks64 (shaPad authKey)).foldl sha1Compress sha1Init = s
  have h : ((((sha1Digest s).drop 12).take 8).reverse : List Nat) =
      [s.e % 256, (s.e >>> 8) % 256, (s.e >>> 16) % 256, (s.e >>> 24) % 256,
       s.d % 256, (s.d >>> 8) % 256, (s.d >>> 16) % 256, (s.d >>> 24) % 256] := rfl
  have h2 : ((sha1Digest s).getD 19 0 <<< 56) ||| ((sha1Digest s).getD 18 0 <<< 48)
      ||| ((sha1Digest s).getD 17 0 <<< 40) ||| ((sha1Digest s).getD 16 0 <<< 32)
      ||| ((sha1Digest s).getD 15 0 <<< 24) ||| ((sha1Digest s).getD 14 0 <<< 16)
      ||| ((sha1Digest s).getD 13 0 <<< 8) ||| (sha1Digest s).getD 12 0
      = ((s.e % 256) <<< 56) ||| (((s.e >>> 8) % 256) <<< 48)
        ||| (((s.e >>> 16) % 256) <<< 40) ||| (((s.e >>> 24) % 256) <<< 32)
        ||| ((s.d % 256) <<< 24) ||| (((s.d >>> 8) % 256) <<< 16)
        ||| (((s.d >>> 16) % 256) <<< 8) ||| ((s.d >>> 24) % 256) := rfl
  rw [h, h2, assembleBE]
  simp only [List.foldl, or_shiftLeft, Nat.zero_shiftLeft, Nat.zero_or,
    ← Nat.shiftLeft_add]

/-- Claim C9: a `phoneCallRequested` update that passes the admin and
participant identity checks but carries a commitment hash of the wrong
size forces `Failed`, yet the call's `id`, `accessHash` and `protocol`
have already been overwritten with the payload's values. -/
theorem C9_bad_hash_size_keeps_fields (c : Call) (d : RequestedData)
    (h1 : c.type = .Incoming) (h2 : c.id = 0) (h3 : c.peerUserId = d.adminId)
    (h4 : c.selfUserId = d.participantId) (h5 : d.gaHash.length ≠ c.gaHash.length)
    (h6 : c.state ≠ .Failed) :
    c.handleUpdate (.requested d) =
      some (true,
        { c with id := d.id, accessHash := d.accessHash, protocol := d.protocol,
                 state := .Failed },
        [.stateChanged .Failed, .callFailed]) := by
  simp [Call.handleUpdate, h1, h2, h3, h4, h5, Call.setState, h6]

/-- Witness for C9 at a concrete incoming call and payload. -/
theorem C9_bad_hash_size_keeps_fields_witness :
    sampleIncoming.handleUpdate
        (.requested { id := 11, accessHash := 22, adminId := 7, participantId := 9,
                      protocol := 3, gaHash := [1, 2, 3] }) =
      some (true,
        { sampleIncoming with id := 11, accessHash := 22, protocol := 3,
                              state := .Failed },
        [.stateChanged .Failed, .callFailed]) :=
  C9_bad_hash_size_keeps_fields sampleIncoming
    { id := 11, accessHash := 22, adminId := 7, participantId := 9,
      protocol := 3, gaHash := [1, 2, 3] }
    (by decide) (by decide) (by decide) (by decide) (by decide) (by decide)

/-- Claim C6: hanging up while `Requesting` leaves the state `Requesting`
(arming only the timeout and the deferred-finish flag, issuing no
request), and the pending request-call success response then drives the
call to `Ended` with no discard-call request ever issued. -/
theorem C6_hangup_while_requesting (c : Call) (d : WaitingData)
    (h1 : c.state = .Requesting) (h2 : c.id = 0) :
    c.hangup = ({ c with finishAfterRequestingCall := true }, [.armHangupTimeout]) ∧
    ({ c with finishAfterRequestingCall := true } : Call).state = .Requesting ∧
    Call.requestCallResult { c with finishAfterRequestingCall := true } (.waiting d) =
      some ({ c with finishAfterRequestingCall := true, state := .Ended },
        [.stateChanged .Waiting, .stateChanged .Ended, .callFinished]) := by
  refine ⟨?_, by simp [h1], ?_⟩
  · simp [Call.hangup, Call.finish, h1]
  · simp [Call.requestCallResult, Call.setState, h1, Call.hangup, Call.finish, h2]

/-- Witness for C6 at a freshly constructed outgoing call. -/
theorem C6_hangup_while_requesting_witness :
    sampleOutgoing.hangup =
      ({ sampleOutgoing with finishAfterRequestingCall := true }, [.armHangupTimeout]) ∧
    ({ sampleOutgoing with finishAfterRequestingCall := true } : Call).state = .Requesting ∧
    Call.requestCallResult { sampleOutgoing with finishAfterRequestingCall := true }
        (.waiting { id := 11, accessHash := 22 }) =
      some ({ sampleOutgoing with finishAfterRequestingCall := true, state := .Ended },
        [.stateChanged .Waiting, .stateChanged .Ended, .callFinished]) :=
  C6_hangup_while_requesting sampleOutgoing { id := 11, accessHash := 22 }
    (by decide) (by decide)

/-- For a call already in `Requesting`, `startOutgoing` never emits
another `Requesting` notification: the failure branch notifies `Failed`,
and the success branch's `setState(Requesting)` is a no-op. -/
theorem startOutgoing_no_requesting_notification (c : Call) (randomId : Nat)
    (r : Call × List Effect) (hst : c.state = .Requesting)
    (h : c.startOutgoing randomId = some r) :
    Effect.stateChanged .Requesting ∉ r.2 := by
  unfold Call.startOutgoing at h
  split at h
  · cases h
  · rename_i ga heq
    dsimp only at h
    by_cases hga : ga = []
    · rw [if_pos hga] at h
      simp only [Call.setState] at h
      rw [if_neg (by simp [hst])] at h
      try dsimp only at h
      cases h
      simp
    · rw [if_neg hga] at h
      simp only [Call.setState] at h
      rw [if_pos (by simp [hst])] at h
      try dsimp only at h
      cases h
      simp

/-- For an outgoing call already in `Requesting`, a completed `start`
never emits a `Requesting` notification. -/
theorem start_no_requesting_notification (c : Call) (dh : DhConfig)
    (sysRand random : List Nat) (randomId : Nat) (r : Call × List Effect)
    (hst : c.state = .Requesting) (hty : c.type = .Outgoing)
    (h : c.start dh sysRand random randomId = some r) :
    Effect.stateChanged .Requesting ∉ r.2 := by
  unfold Call.start at h
  by_cases hdh : dh.g = 0 ∨ dh.p = []
  · rw [if_pos hdh] at h; cases h
  · rw [if_neg hdh] at h
    dsimp only at h
    unfold Call.generateRandomPower at h
    by_cases hlen : random.length = ({ c with dhConfig := dh } : Call).randomPower.length
    · rw [if_pos hlen] at h
      dsimp only at h
      rw [if_pos (by simp [hty])] at h
      exact startOutgoing_no_requesting_notification _ randomId r (by simp [hst]) h
    · rw [if_neg hlen] at h; cases h

/-- Claim C10: constructing an outgoing call emits exactly one
`Requesting` state-change notification, at construction time, and any
completed `start` emits none (the `setState(Requesting)` inside
`startOutgoing` is a re-entrant no-op). -/
theorem C10_requesting_notified_once (peer self : Nat) (dh : DhConfig)
    (sysRand random : List Nat) (randomId : Nat) (r : Call × List Effect)
    (h : (Call.construct .Outgoing peer self).1.start dh sysRand random randomId = some r) :
    (Call.construct .Outgoing peer self).2 = [.stateChanged .Requesting] ∧
    Effect.stateChanged .Requesting ∉ r.2 := by
  exact ⟨rfl, start_no_requesting_notification _ dh sysRand random randomId r rfl rfl h⟩

/-- The call produced by a successful concrete `start` of a fresh
outgoing call with all-zero randomness and the sample DH parameters. -/
def c10Result : Call :=
  { sampleOutgoing with
    dhConfig := dhSample
    randomPower := zeros256
    ga := [1]
    gaHash := Sha256 [1] }

/-- Witness for C10: a concrete completed `start` whose effect trace
holds no `Requesting` notification. -/
theorem C10_requesting_notified_once_witness :
    (Call.construct .Outgoing 7 9).2 = [.stateChanged .Requesting] ∧
    Effect.stateChanged .Requesting ∉
      (c10Result, [Effect.sendRequest (.requestCall 7 0 (Sha256 [1]))]).2 :=
  C10_requesting_notified_once 7 9 dhSample zeros256 zeros256 0
    (c10Result, [Effect.sendRequest (.requestCall 7 0 (Sha256 [1]))]) (by decide)

end Calls
